import Mathlib

/-!
Shallow embedding of src/src/idle-dungeon-game.tsx: the Globe component
(marker placement, drag-to-rotate handlers, click picking, per-frame
animation styling) and the game handlers (handleRaid, game log), together
with theorems checking the specification's claims about them.

Numbers are modelled as follows: geometric quantities (vector components,
scores, opacities, intensities, scales, rotation angles) are real numbers;
game-state quantities (strength, experience) are rationals; ids, levels and
gold are naturals.
-/

set_option maxHeartbeats 1000000

open scoped Classical

/-- 3D vector with real components, modelling THREE.Vector3. -/
@[ext]
structure Vec3 where
  x : ℝ
  y : ℝ
  z : ℝ

/-- Componentwise difference, modelling Vector3.sub / clone().sub(...). -/
def Vec3.sub (a b : Vec3) : Vec3 := ⟨a.x - b.x, a.y - b.y, a.z - b.z⟩

/-- Dot product, modelling Vector3.dot. -/
def Vec3.dot (a b : Vec3) : ℝ := a.x * b.x + a.y * b.y + a.z * b.z

/-- Scalar multiple, modelling Vector3.multiplyScalar. -/
def Vec3.smul (r : ℝ) (v : Vec3) : Vec3 := ⟨r * v.x, r * v.y, r * v.z⟩

/-- Euclidean length, modelling Vector3.length. -/
noncomputable def Vec3.length (v : Vec3) : ℝ := Real.sqrt (v.dot v)

/-- Normalization, modelling Vector3.normalize. The zero vector stays zero:
three.js divides by (length or 1) so the zero vector is unchanged, and here
1 / 0 = 0 gives the same result. -/
noncomputable def Vec3.normalize (v : Vec3) : Vec3 := Vec3.smul (1 / v.length) v

/-- Dungeon descriptor: the Dungeon type of the source. The source stores the
position as a raw 3-component array that is only ever turned into a
THREE.Vector3, so it is modelled as a Vec3 directly. -/
structure Dungeon where
  id : ℕ
  name : String
  level : ℕ
  requiredStrength : ℚ
  position : Vec3

/-- First entry of the DUNGEONS table (colors are presentation-only and
omitted from the model). -/
noncomputable def goblinCave : Dungeon := ⟨1, "Goblin Cave", 1, 10, ⟨2, 3, 2⟩⟩

/-- Second entry of the DUNGEONS table. -/
noncomputable def orcStronghold : Dungeon := ⟨2, "Orc Stronghold", 2, 50, ⟨-3, 2, 1⟩⟩

/-- Third entry of the DUNGEONS table. -/
noncomputable def dragonLair : Dungeon := ⟨3, "Dragon Lair", 3, 150, ⟨1, -3, 3⟩⟩

/-- Fourth entry of the DUNGEONS table. -/
noncomputable def undeadCrypt : Dungeon := ⟨4, "Undead Crypt", 4, 300, ⟨-2, -2, -3⟩⟩

/-- Fifth entry of the DUNGEONS table. -/
noncomputable def demonFortress : Dungeon := ⟨5, "Demon Fortress", 5, 500, ⟨3, 1, -2⟩⟩

/-- The DUNGEONS constant of the source. -/
noncomputable def DUNGEONS : List Dungeon :=
  [goblinCave, orcStronghold, dragonLair, undeadCrypt, demonFortress]

/-- GAME_CONFIG.GLOBE_RADIUS. -/
noncomputable def GLOBE_RADIUS : ℝ := 5

/-- Marker base local position: the descriptor's raw position vector is
normalized and then multiplied by (GLOBE_RADIUS + 0.4), exactly the two
Vector3 calls at marker creation. -/
noncomputable def markerBasePosition (position : Vec3) : Vec3 :=
  Vec3.smul (GLOBE_RADIUS + 0.4) (Vec3.normalize position)

/-- The globeCenter vector built in handleClick and animate:
new THREE.Vector3(0, 0, 0). -/
def globeCenter : Vec3 := ⟨0, 0, 0⟩

/-- The front-face score computed identically in handleClick and animate:
dot of the normalized direction from the globe center to the marker's world
position with the normalized direction from the globe center to the camera. -/
noncomputable def frontScore (worldPosition cameraPosition : Vec3) : ℝ :=
  Vec3.dot (Vec3.normalize (Vec3.sub worldPosition globeCenter))
           (Vec3.normalize (Vec3.sub cameraPosition globeCenter))

/-- One entry of the ray-intersection list handed back by
raycaster.intersectObjects([globe, ...markers]) (sorted nearest-first by the
raycaster). The globe mesh has no userData.dungeon; a marker carries its
dungeon userData and its world position at click time (getWorldPosition). -/
inductive SceneObject where
  | globeObject : SceneObject
  | markerObject (dungeon : Dungeon) (worldPosition : Vec3) : SceneObject

/-- The for-loop of handleClick over the sorted intersection list: entries
without userData.dungeon are skipped; for a marker entry the front-face score
is computed and, if it exceeds 0.3, that marker's dungeon is reported and the
loop returns; otherwise scanning continues; after the loop the result is
none (deselect). -/
noncomputable def scanIntersections (cameraPosition : Vec3) :
    List SceneObject → Option Dungeon
  | [] => none
  | SceneObject.globeObject :: rest => scanIntersections cameraPosition rest
  | SceneObject.markerObject d worldPosition :: rest =>
    if frontScore worldPosition cameraPosition > 0.3 then some d
    else scanIntersections cameraPosition rest

/-- handleClick, returning the list of onDungeonSelect invocations it makes:
if the drag flag is set it returns immediately (no invocation); otherwise it
invokes the callback exactly once, with the scan result (some dungeon on a
pick, none on deselection). -/
noncomputable def handleClick (isDragging : Bool) (cameraPosition : Vec3)
    (intersects : List SceneObject) : List (Option Dungeon) :=
  if isDragging then [] else [scanIntersections cameraPosition intersects]

/-- The pick result as the specification words it: walk the sorted
intersections and report the first marker whose front-face visibility test
passes (score > 0.3), skipping non-marker intersections; none if no
intersection passes. -/
noncomputable def specPickResult (cameraPosition : Vec3)
    (intersects : List SceneObject) : Option Dungeon :=
  intersects.findSome? fun obj =>
    match obj with
    | SceneObject.globeObject => none
    | SceneObject.markerObject d p =>
      if frontScore p cameraPosition > 0.3 then some d else none

/-- animate: marker.material.opacity as a function of the marker's front-face
dot product: 1 when visible (dot > 0.3), 0.15 otherwise. -/
noncomputable def markerOpacity (dotProduct : ℝ) : ℝ :=
  if dotProduct > 0.3 then 1 else 0.15

/-- animate: marker.material.emissiveIntensity as a function of the front-face
dot product, the wall-clock time t (Date.now()) and the marker's index:
0.4 + sin(t * 0.001 + index) * 0.3 when visible, pinned to 0.1 otherwise. -/
noncomputable def markerIntensity (dotProduct t : ℝ) (index : ℕ) : ℝ :=
  if dotProduct > 0.3 then 0.4 + Real.sin (t * 0.001 + index) * 0.3 else 0.1

/-- animate: the uniform scale set by marker.scale.setScalar as a function of
the selection the animation pass reads, the marker's dungeon, its front-face
dot product and the wall-clock time: the pulse 1.5 + sin(t * 0.005) * 0.2
when the selection is present, ids match and the marker is visible; 1
otherwise. -/
noncomputable def markerScale (selectedDungeon : Option Dungeon) (d : Dungeon)
    (dotProduct t : ℝ) : ℝ :=
  match selectedDungeon with
  | some sel =>
    if d.id = sel.id ∧ dotProduct > 0.3 then 1.5 + Real.sin (t * 0.005) * 0.2
    else 1
  | none => 1

/-- The closure state of the Globe effect: useEffect runs with an empty
dependency list, so the animate closure keeps the selectedDungeon prop value
from the render in which the effect ran, for the whole mount. -/
structure GlobeClosure where
  capturedSelection : Option Dungeon

/-- Mounting the Globe: the effect body runs once and the animate closure
captures the selectedDungeon prop current at that moment. -/
def mountGlobe (selectedDungeon : Option Dungeon) : GlobeClosure :=
  ⟨selectedDungeon⟩

/-- The scale the code's animation pass assigns on a frame: because the
effect's dependency list is empty and no ref is used, animate reads the
captured selection, not the selection current at the frame
(currentSelection is the prop value at frame time and is not consulted). -/
noncomputable def frameMarkerScale (g : GlobeClosure)
    (currentSelection : Option Dungeon) (d : Dungeon) (dotProduct t : ℝ) : ℝ :=
  markerScale g.capturedSelection d dotProduct t

/-- mouseRef.current: drag flag and last recorded pointer coordinates. -/
structure MouseState where
  isDragging : Bool
  lastX : ℝ
  lastY : ℝ

/-- rotationRef.current: accumulated pitch (x) and yaw (y). -/
structure RotationState where
  x : ℝ
  y : ℝ

/-- handleMouseMove: no-op unless dragging; otherwise the deltas from the last
recorded coordinates are accumulated into the rotation (y += deltaX * 0.01,
x += deltaY * 0.01) and the last coordinates are updated to the event's. -/
noncomputable def handleMouseMove (clientX clientY : ℝ)
    (st : MouseState × RotationState) : MouseState × RotationState :=
  if st.1.isDragging then
    let deltaX := clientX - st.1.lastX
    let deltaY := clientY - st.1.lastY
    (⟨true, clientX, clientY⟩,
     ⟨st.2.x + deltaY * 0.01, st.2.y + deltaX * 0.01⟩)
  else st

/-- handleMouseDown: begin the drag and record the starting coordinates. -/
noncomputable def handleMouseDown (clientX clientY : ℝ)
    (st : MouseState × RotationState) : MouseState × RotationState :=
  (⟨true, clientX, clientY⟩, st.2)

/-- handleMouseUp: end the drag. -/
noncomputable def handleMouseUp (st : MouseState × RotationState) :
    MouseState × RotationState :=
  (⟨false, st.1.lastX, st.1.lastY⟩, st.2)

/-- Applying one drag delta (dx, dy): a mouse-move event whose coordinates
differ from the last recorded ones by exactly that delta. -/
noncomputable def applyDelta (st : MouseState × RotationState) (d : ℝ × ℝ) :
    MouseState × RotationState :=
  handleMouseMove (st.1.lastX + d.1) (st.1.lastY + d.2) st

/-- Applying a sequence of drag deltas in order. -/
noncomputable def applyDeltas (st : MouseState × RotationState) :
    List (ℝ × ℝ) → MouseState × RotationState
  | [] => st
  | d :: ds => applyDeltas (applyDelta st d) ds

/-- The four pointer listeners registered on renderer.domElement. -/
structure PointerListeners where
  onMousedown : Bool
  onMousemove : Bool
  onMouseup : Bool
  onClick : Bool
deriving DecidableEq

/-- Scene-host state relevant to teardown: which pointer listeners are
attached, whether an animation-frame callback is currently scheduled, and
whether the render surface is attached to the mount point. -/
structure HostState where
  listeners : PointerListeners
  rafScheduled : Bool
  surfaceAttached : Bool
deriving DecidableEq

/-- The body of animate: its first statement is requestAnimationFrame(animate),
which unconditionally schedules the callback again (the styling and render
work does not touch this state). -/
def animateFrameBody (s : HostState) : HostState :=
  { s with rafScheduled := true }

/-- The browser firing a due animation frame: the scheduled callback is
dequeued and animate runs. -/
def fireAnimationFrame (s : HostState) : HostState :=
  if s.rafScheduled then animateFrameBody { s with rafScheduled := false } else s

/-- State after the effect body has run: the four listeners are registered,
animate() was called once (so a frame callback is scheduled) and the renderer
canvas is attached. -/
def mountEffect : HostState :=
  { listeners := ⟨true, true, true, true⟩, rafScheduled := true, surfaceAttached := true }

/-- The effect cleanup: the four removeEventListener calls and the removal of
the canvas from the mount point. No cancelAnimationFrame call and no stop
flag appear anywhere in the cleanup. -/
def cleanup (s : HostState) : HostState :=
  { s with listeners := ⟨false, false, false, false⟩, surfaceAttached := false }

/-- Player state of the main game component. -/
structure Player where
  strength : ℚ
  experience : ℚ
  level : ℕ
  gold : ℕ
deriving DecidableEq

/-- The template literal appended to the game log on a successful raid. -/
def raidMessage (d : Dungeon) (goldReward expReward : ℕ) : String :=
  "Successfully raided " ++ d.name ++ "! Gained " ++ toString goldReward ++
    " gold and " ++ toString expReward ++ " experience."

/-- prev.slice(-4): the last four entries of the log (the whole log when it is
shorter). -/
def sliceLastFour (l : List String) : List String :=
  l.drop (l.length - 4)

/-- handleRaid: if the player's strength reaches the dungeon's required
strength, add level * 10 gold and level * 5 experience and append one message
to the log after truncating it to its last four entries; otherwise change
nothing. -/
def handleRaid (player : Player) (gameLog : List String) (dungeon : Dungeon) :
    Player × List String :=
  if dungeon.requiredStrength ≤ player.strength then
    let goldReward := dungeon.level * 10
    let expReward := dungeon.level * 5
    ({ player with
        gold := player.gold + goldReward,
        experience := player.experience + (expReward : ℚ) },
     sliceLastFour gameLog ++ [raidMessage dungeon goldReward expReward])
  else (player, gameLog)

/-! ## Helper lemmas about the vector model -/

theorem Vec3.dot_self_nonneg (v : Vec3) : 0 ≤ v.dot v := by
  have hx := mul_self_nonneg v.x
  have hy := mul_self_nonneg v.y
  have hz := mul_self_nonneg v.z
  simp only [Vec3.dot]
  linarith

theorem Vec3.dot_self_pos (v : Vec3) (hv : v ≠ ⟨0, 0, 0⟩) : 0 < v.dot v := by
  rcases lt_or_eq_of_le (Vec3.dot_self_nonneg v) with h1 | h1
  · exact h1
  · exfalso
    apply hv
    have hx := mul_self_nonneg v.x
    have hy := mul_self_nonneg v.y
    have hz := mul_self_nonneg v.z
    simp only [Vec3.dot] at h1
    have hx0 : v.x * v.x = 0 := by linarith
    have hy0 : v.y * v.y = 0 := by linarith
    have hz0 : v.z * v.z = 0 := by linarith
    ext
    · exact mul_self_eq_zero.mp hx0
    · exact mul_self_eq_zero.mp hy0
    · exact mul_self_eq_zero.mp hz0

theorem Vec3.length_pos (v : Vec3) (hv : v ≠ ⟨0, 0, 0⟩) : 0 < v.length :=
  Real.sqrt_pos.mpr (Vec3.dot_self_pos v hv)

theorem Vec3.length_smul (r : ℝ) (v : Vec3) :
    (Vec3.smul r v).length = |r| * v.length := by
  have h : (Vec3.smul r v).dot (Vec3.smul r v) = r ^ 2 * v.dot v := by
    simp only [Vec3.smul, Vec3.dot]
    ring
  simp only [Vec3.length, h, Real.sqrt_mul (sq_nonneg r), Real.sqrt_sq_eq_abs]

theorem Vec3.normalize_length (v : Vec3) (hv : v ≠ ⟨0, 0, 0⟩) :
    v.normalize.length = 1 := by
  have hl : 0 < v.length := Vec3.length_pos v hv
  simp only [Vec3.normalize, Vec3.length_smul]
  rw [abs_of_nonneg (by positivity), one_div, inv_mul_cancel₀ hl.ne']

theorem Vec3.normalize_smul (s : ℝ) (hs : 0 < s) (v : Vec3) :
    (Vec3.smul s v).normalize = v.normalize := by
  simp only [Vec3.normalize, Vec3.length_smul, abs_of_pos hs]
  by_cases h0 : v.length = 0
  · ext <;> simp [Vec3.smul, h0]
  · ext <;> simp only [Vec3.smul] <;> field_simp <;> ring

theorem Vec3.normalize_zero_vec : Vec3.normalize ⟨0, 0, 0⟩ = (⟨0, 0, 0⟩ : Vec3) := by
  simp only [Vec3.normalize, Vec3.length, Vec3.dot]
  ext <;> simp [Vec3.smul]

theorem frontScore_origin (cam : Vec3) : frontScore ⟨0, 0, 0⟩ cam = 0 := by
  have h1 : Vec3.sub ⟨0, 0, 0⟩ globeCenter = (⟨0, 0, 0⟩ : Vec3) := by
    simp [Vec3.sub, globeCenter]
  rw [frontScore, h1, Vec3.normalize_zero_vec]
  simp [Vec3.dot]

/-! ## Claim theorems -/

theorem scanIntersections_eq_specPick (cam : Vec3) (l : List SceneObject) :
    scanIntersections cam l = specPickResult cam l := by
  induction l with
  | nil => rfl
  | cons h t ih =>
    cases h with
    | globeObject =>
      rw [scanIntersections, specPickResult, List.findSome?_cons]
      exact ih
    | markerObject d p =>
      by_cases hc : frontScore p cam > 0.3
      · rw [scanIntersections, if_pos hc, specPickResult, List.findSome?_cons]
        simp [hc]
      · rw [scanIntersections, if_neg hc, specPickResult, List.findSome?_cons]
        simpa [hc] using ih

/-- C1: on a non-drag click, the handler walks the sorted intersections,
skips every non-marker intersection, reports the first marker whose
front-face score exceeds 0.3 and stops there, and keeps scanning past
markers that fail the test; if no intersection passes, the callback is
invoked with no descriptor. -/
theorem pick_walk (cam : Vec3) (intersects : List SceneObject) :
    handleClick false cam intersects = [specPickResult cam intersects]
    ∧ ((∀ d p, SceneObject.markerObject d p ∈ intersects → frontScore p cam ≤ 0.3) →
        handleClick false cam intersects = [none]) := by
  constructor
  · simp [handleClick, scanIntersections_eq_specPick]
  · intro hall
    have hnone : specPickResult cam intersects = none := by
      rw [specPickResult, List.findSome?_eq_none_iff]
      intro x hx
      cases x with
      | globeObject => rfl
      | markerObject d p =>
        simp only [if_neg (not_lt.mpr (hall d p hx))]
    simp [handleClick, scanIntersections_eq_specPick, hnone]

/-- Witness for C1: a click whose ray hits the globe first and then a marker
sitting at the globe center (score 0) reports deselection. -/
theorem pick_walk_w :
    handleClick false ⟨0, 0, 10⟩
      [SceneObject.globeObject, SceneObject.markerObject goblinCave ⟨0, 0, 0⟩] = [none] := by
  apply (pick_walk ⟨0, 0, 10⟩ _).2
  intro d p hp
  simp only [List.mem_cons, List.not_mem_nil, or_false] at hp
  rcases hp with hp | hp
  · exact absurd hp (by simp)
  · rw [SceneObject.markerObject.injEq] at hp
    rw [hp.2, frontScore_origin]
    norm_num

/-- C2: every frame, a marker's front-face score is the dot product of the
normalized direction from the sphere center to its world position with the
normalized direction from the sphere center to the camera; when it exceeds
0.3 the opacity is 1 and the emissive intensity is 0.4 plus the sine of the
index-offset wall-clock time, times 0.3; when it is at most 0.3 the opacity
is 0.15 and the intensity is 0.1. -/
theorem animate_marker_styling (p cam : Vec3) (t : ℝ) (index : ℕ) :
    frontScore p cam
      = Vec3.dot (Vec3.normalize (Vec3.sub p globeCenter))
          (Vec3.normalize (Vec3.sub cam globeCenter))
    ∧ (frontScore p cam > 0.3 →
        markerOpacity (frontScore p cam) = 1
        ∧ markerIntensity (frontScore p cam) t index
            = 0.4 + Real.sin (t * 0.001 + index) * 0.3)
    ∧ (frontScore p cam ≤ 0.3 →
        markerOpacity (frontScore p cam) = 0.15
        ∧ markerIntensity (frontScore p cam) t index = 0.1) := by
  refine ⟨rfl, fun h => ?_, fun h => ?_⟩
  · rw [markerOpacity, if_pos h, markerIntensity, if_pos h]
    exact ⟨rfl, rfl⟩
  · rw [markerOpacity, if_neg (not_lt.mpr h), markerIntensity, if_neg (not_lt.mpr h)]
    exact ⟨rfl, rfl⟩

/-- Witness for C2: a marker at the globe center has score 0, which is at
most 0.3, so it is faded to opacity 0.15 and intensity 0.1. -/
theorem animate_marker_styling_w :
    frontScore ⟨0, 0, 0⟩ ⟨0, 0, 10⟩ ≤ 0.3
    ∧ markerOpacity (frontScore ⟨0, 0, 0⟩ ⟨0, 0, 10⟩) = 0.15
    ∧ markerIntensity (frontScore ⟨0, 0, 0⟩ ⟨0, 0, 10⟩) 0 0 = 0.1 := by
  have hle : frontScore ⟨0, 0, 0⟩ ⟨0, 0, 10⟩ ≤ 0.3 := by
    rw [frontScore_origin]; norm_num
  exact ⟨hle, (animate_marker_styling ⟨0, 0, 0⟩ ⟨0, 0, 10⟩ 0 0).2.2 hle⟩

/-- C5: a marker's base local position is the descriptor's direction vector
normalized and scaled by (sphere radius + standoff), so its base distance
from the sphere center is GLOBE_RADIUS + 0.4 whatever the raw vector's
magnitude, and the placement is invariant under positive scaling of the
input direction. -/
theorem marker_placement (v : Vec3) (hv : v ≠ ⟨0, 0, 0⟩) :
    (markerBasePosition v).length = GLOBE_RADIUS + 0.4
    ∧ ∀ s : ℝ, 0 < s → markerBasePosition (Vec3.smul s v) = markerBasePosition v := by
  constructor
  · rw [markerBasePosition, Vec3.length_smul, Vec3.normalize_length v hv, mul_one,
      abs_of_nonneg (by norm_num [GLOBE_RADIUS])]
  · intro s hs
    rw [markerBasePosition, Vec3.normalize_smul s hs, markerBasePosition]

/-- Witness for C5: the Goblin Cave direction (2, 3, 2) is nonzero and its
marker sits at distance GLOBE_RADIUS + 0.4 from the center. -/
theorem marker_placement_w :
    ((⟨2, 3, 2⟩ : Vec3) ≠ (⟨0, 0, 0⟩ : Vec3))
    ∧ (markerBasePosition ⟨2, 3, 2⟩).length = GLOBE_RADIUS + 0.4 := by
  have hv : (⟨2, 3, 2⟩ : Vec3) ≠ (⟨0, 0, 0⟩ : Vec3) := by
    intro h
    have hx := congrArg Vec3.x h
    norm_num at hx
  exact ⟨hv, (marker_placement ⟨2, 3, 2⟩ hv).1⟩

/-- C3 (code bug): the animate closure is created inside a useEffect with an
empty dependency list and no ref is used, so it styles markers from the
selectedDungeon prop captured at mount time, not from the selection current
at the frame. At the failing input — mounted with no selection, Goblin Cave
then selected and its marker front-facing (score 1) at time 0 — the code
assigns scale 1, while styling from the frame-current selection would assign
the 1.5-baseline pulse (value 1.5 at time 0), and the two differ. The code's
own comment on the dependency list says to use a ref for exactly this. -/
theorem stale_selection_capture :
    frameMarkerScale (mountGlobe none) (some goblinCave) goblinCave 1 0 = 1
    ∧ markerScale (some goblinCave) goblinCave 1 0 = 1.5
    ∧ frameMarkerScale (mountGlobe none) (some goblinCave) goblinCave 1 0
        ≠ markerScale (some goblinCave) goblinCave 1 0 := by
  have h2 : markerScale (some goblinCave) goblinCave 1 0 = 1.5 := by
    rw [markerScale]
    rw [if_pos ⟨rfl, by norm_num⟩]
    norm_num [Real.sin_zero]
  refine ⟨rfl, h2, ?_⟩
  rw [h2, frameMarkerScale, mountGlobe, markerScale]
  norm_num

/-- C4 (code bug): the cleanup removes the four pointer listeners and the
render surface, but neither calls cancelAnimationFrame nor sets a stop flag,
and animate's first statement is requestAnimationFrame(animate); so when the
frame callback that was pending at teardown fires, it schedules itself
again. -/
theorem raf_not_cancelled :
    (cleanup mountEffect).listeners = ⟨false, false, false, false⟩
    ∧ (cleanup mountEffect).surfaceAttached = false
    ∧ (fireAnimationFrame (cleanup mountEffect)).rafScheduled = true :=
  ⟨rfl, rfl, rfl⟩

theorem applyDeltas_formula (lx ly : ℝ) (r : RotationState) (ds : List (ℝ × ℝ)) :
    applyDeltas (⟨true, lx, ly⟩, r) ds =
      (⟨true, lx + (ds.map Prod.fst).sum, ly + (ds.map Prod.snd).sum⟩,
       ⟨r.x + (ds.map Prod.snd).sum * 0.01, r.y + (ds.map Prod.fst).sum * 0.01⟩) := by
  induction ds generalizing lx ly r with
  | nil => simp [applyDeltas]
  | cons d ds ih =>
    have hstep : applyDelta (⟨true, lx, ly⟩, r) d =
        (⟨true, lx + d.1, ly + d.2⟩, ⟨r.x + d.2 * 0.01, r.y + d.1 * 0.01⟩) := by
      simp [applyDelta, handleMouseMove, add_sub_cancel_left]
    rw [applyDeltas, hstep, ih]
    simp only [List.map_cons, List.sum_cons, Prod.mk.injEq, MouseState.mk.injEq,
      RotationState.mk.injEq, true_and]
    refine ⟨⟨by ring, by ring⟩, by ring, by ring⟩

/-- C6: while dragging, the accumulated orientation after a sequence of drag
deltas is the start orientation plus sensitivity times the per-axis delta
sums (yaw from the x-sum, pitch from the y-sum), so any two sequences with
the same per-axis sums end in the same orientation. -/
theorem drag_accumulation (m : MouseState) (r : RotationState)
    (ds ds' : List (ℝ × ℝ)) (hdrag : m.isDragging = true)
    (hx : (ds.map Prod.fst).sum = (ds'.map Prod.fst).sum)
    (hy : (ds.map Prod.snd).sum = (ds'.map Prod.snd).sum) :
    (applyDeltas (m, r) ds).2 =
      ⟨r.x + (ds.map Prod.snd).sum * 0.01, r.y + (ds.map Prod.fst).sum * 0.01⟩
    ∧ (applyDeltas (m, r) ds).2 = (applyDeltas (m, r) ds').2 := by
  obtain ⟨b, lx, ly⟩ := m
  simp only [MouseState.isDragging] at hdrag
  subst hdrag
  rw [applyDeltas_formula, applyDeltas_formula]
  exact ⟨rfl, by rw [hx, hy]⟩

/-- Witness for C6: the delta sequences (1,2),(3,4) and (4,6) have the same
per-axis sums and end in the same orientation. -/
theorem drag_accumulation_w :
    (applyDeltas (⟨true, 0, 0⟩, ⟨0, 0⟩) [(1, 2), (3, 4)]).2 =
      (applyDeltas (⟨true, 0, 0⟩, ⟨0, 0⟩) [(4, 6)]).2 :=
  (drag_accumulation ⟨true, 0, 0⟩ ⟨0, 0⟩ [(1, 2), (3, 4)] [(4, 6)] rfl
    (by norm_num) (by norm_num)).2

/-- C7: with the drag flag set, handleClick invokes no callback at all; with
it clear, the selection-report callback is invoked exactly once. -/
theorem click_drag_exclusion (isDragging : Bool) (cam : Vec3)
    (intersects : List SceneObject) :
    (isDragging = true → handleClick isDragging cam intersects = [])
    ∧ (isDragging = false → (handleClick isDragging cam intersects).length = 1) := by
  constructor <;> intro h <;> subst h <;> simp [handleClick]

/-- Witness for C7: a dragging click makes no callback; a non-drag click on
empty space makes exactly one. -/
theorem click_drag_exclusion_w :
    handleClick true ⟨0, 0, 10⟩ [] = []
    ∧ (handleClick false ⟨0, 0, 10⟩ []).length = 1 :=
  ⟨(click_drag_exclusion true ⟨0, 0, 10⟩ []).1 rfl,
   (click_drag_exclusion false ⟨0, 0, 10⟩ []).2 rfl⟩

/-- C8: the marker whose id matches the selection the pass reads gets, when
its score exceeds 0.3, the uniform scale 1.5 + sin(t * 0.005) * 0.2; with no
selection, with a non-matching id, or with score at most 0.3 the scale is
1. -/
theorem selected_marker_pulse (sel : Option Dungeon) (d : Dungeon)
    (dotProduct t : ℝ) :
    (∀ s, sel = some s → d.id = s.id → dotProduct > 0.3 →
        markerScale sel d dotProduct t = 1.5 + Real.sin (t * 0.005) * 0.2)
    ∧ (sel = none → markerScale sel d dotProduct t = 1)
    ∧ (∀ s, sel = some s → d.id ≠ s.id → markerScale sel d dotProduct t = 1)
    ∧ (dotProduct ≤ 0.3 → markerScale sel d dotProduct t = 1) := by
  refine ⟨?_, ?_, ?_, ?_⟩
  · rintro s rfl hid hgt
    rw [markerScale, if_pos ⟨hid, hgt⟩]
  · rintro rfl
    rfl
  · rintro s rfl hid
    rw [markerScale, if_neg]
    intro hc
    exact hid hc.1
  · intro hle
    cases sel with
    | none => rfl
    | some s =>
      rw [markerScale, if_neg]
      intro hc
      exact absurd hc.2 (not_lt.mpr hle)

/-- Witness for C8: the selected, front-facing Goblin Cave marker (score 1)
pulses with baseline 1.5. -/
theorem selected_marker_pulse_w :
    markerScale (some goblinCave) goblinCave 1 0 = 1.5 + Real.sin (0 * 0.005) * 0.2 :=
  (selected_marker_pulse (some goblinCave) goblinCave 1 0).1 goblinCave rfl rfl
    (by norm_num)

/-- C9: a raid against a dungeon whose required strength exceeds the player's
current strength changes neither the player state nor the game log; a raid
with enough strength adds exactly level * 10 gold and level * 5 experience
(leaving strength and level untouched) and appends exactly one entry to the
truncated log. -/
theorem handleRaid_spec (p : Player) (log : List String) (d : Dungeon) :
    (p.strength < d.requiredStrength → handleRaid p log d = (p, log))
    ∧ (d.requiredStrength ≤ p.strength →
        handleRaid p log d =
          ({ p with
              gold := p.gold + d.level * 10,
              experience := p.experience + ((d.level * 5 : ℕ) : ℚ) },
           sliceLastFour log ++ [raidMessage d (d.level * 10) (d.level * 5)])) := by
  constructor
  · intro h
    rw [handleRaid, if_neg (not_le.mpr h)]
  · intro h
    rw [handleRaid, if_pos h]

/-- Witness for C9: a player with strength 100 raids the Goblin Cave
(required strength 10, level 1), gaining 10 gold and 5 experience with one
log entry appended. -/
theorem handleRaid_spec_w :
    handleRaid ⟨100, 0, 1, 0⟩ [] goblinCave =
      ({ (⟨100, 0, 1, 0⟩ : Player) with
          gold := 0 + goblinCave.level * 10,
          experience := (0 : ℚ) + ((goblinCave.level * 5 : ℕ) : ℚ) },
       sliceLastFour [] ++ [raidMessage goblinCave (goblinCave.level * 10) (goblinCave.level * 5)]) :=
  (handleRaid_spec ⟨100, 0, 1, 0⟩ [] goblinCave).2 (by norm_num [goblinCave])

theorem handleRaid_log_le (p : Player) (log : List String) (d : Dungeon)
    (h : log.length ≤ 5) : ((handleRaid p log d).2).length ≤ 5 := by
  rw [handleRaid]
  by_cases hs : d.requiredStrength ≤ p.strength
  · rw [if_pos hs]
    simp only [List.length_append, List.length_cons, List.length_nil]
    have : (sliceLastFour log).length ≤ 4 := by
      rw [sliceLastFour, List.length_drop]
      omega
    omega
  · rw [if_neg hs]
    exact h

theorem raidSeq_log_le (raids : List (Player × Dungeon)) (log : List String)
    (h : log.length ≤ 5) :
    (raids.foldl (fun l pd => (handleRaid pd.1 l pd.2).2) log).length ≤ 5 := by
  induction raids generalizing log with
  | nil => exact h
  | cons pd raids ih =>
    rw [List.foldl_cons]
    exact ih _ (handleRaid_log_le pd.1 log pd.2 h)

/-- C10: every raid truncates the log to its last four entries before
appending one, so a log of at most five entries stays at most five entries,
and any sequence of raids starting from the empty initial log keeps the log
at five entries or fewer. -/
theorem gameLog_invariant :
    (∀ (p : Player) (log : List String) (d : Dungeon), log.length ≤ 5 →
        ((handleRaid p log d).2).length ≤ 5)
    ∧ ∀ raids : List (Player × Dungeon),
        (raids.foldl (fun l pd => (handleRaid pd.1 l pd.2).2) []).length ≤ 5 :=
  ⟨handleRaid_log_le, fun raids => raidSeq_log_le raids [] (by simp)⟩

/-- Witness for C10: raiding with a full five-entry log keeps it at five
entries. -/
theorem gameLog_invariant_w :
    (["a", "b", "c", "d", "e"] : List String).length ≤ 5
    ∧ ((handleRaid ⟨100, 0, 1, 0⟩ ["a", "b", "c", "d", "e"] goblinCave).2).length ≤ 5 :=
  ⟨by simp, gameLog_invariant.1 ⟨100, 0, 1, 0⟩ ["a", "b", "c", "d", "e"] goblinCave (by simp)⟩
